import Mathlib

/-!
Verification of the kip control core against its source.

This file shallowly embeds the parts of the `server` package (and the spec-described
pieces whose sources are absent) that the checked properties mention: the event-list
query filter, the region immutability check at startup, the provider configuration
loader, the virtual-kubelet node synthesis, the controller tick intervals, the
stubbed pod lifecycle callbacks, and the `findLog` registry fallback.

Go machine values are modelled as follows: `time.Time`/`time.Duration` become `Int`
(nanoseconds; `Time.Before` is strict `<`), nilable pointers become `Option`,
fallible calls return `Except String`, and Go maps become association lists.
-/

namespace Kip

/-- Timestamps (Go `time.Time`), ordered; `a.Before b` is `a < b`. -/
abbrev Timestamp := Int

/-- An `api.Event` as far as the filtering code inspects it: the fields the
`server` package reads are `CreationTimestamp` (the sort key); other payload is
kept abstract as strings. -/
structure Event where
  name : String
  creationTimestamp : Timestamp
  message : String
deriving Repr, DecidableEq

/-- An `api.EventList` (list of events). A `*api.EventList` pointer is
`Option EventList`. -/
structure EventList where
  items : List Event
deriving Repr, DecidableEq

/-- The package variable `MaxEventListSize = 4000`. -/
def MaxEventListSize : Nat := 4000

/-- The comparator under which `sort.Slice` with the strict `Before` less-function
leaves `Items` sorted: nondecreasing `CreationTimestamp`. -/
def eventLE (a b : Event) : Bool :=
  decide (a.creationTimestamp ≤ b.creationTimestamp)

/-- Embedding of `filterEventList` (etcd_test_helpers.go:448-459): when the list is
non-nil and has more than `MaxEventListSize` items, sort ascending by
`CreationTimestamp` and keep the last `MaxEventListSize` items. -/
def filterEventList (eventList : Option EventList) : Option EventList :=
  match eventList with
  | some el =>
    if el.items.length > MaxEventListSize then
      let sorted := el.items.mergeSort eventLE
      let size := sorted.length
      let start := size - MaxEventListSize
      some { items := sorted.drop start }
    else some el
  | none => none

theorem eventLE_trans (a b c : Event) (hab : eventLE a b = true)
    (hbc : eventLE b c = true) : eventLE a c = true := by
  simp only [eventLE, decide_eq_true_eq] at *
  exact le_trans hab hbc

theorem eventLE_total (a b : Event) : (eventLE a b || eventLE b a) = true := by
  simp only [eventLE, Bool.or_eq_true, decide_eq_true_eq]
  exact le_total _ _

theorem filterEventList_big (el : EventList)
    (h : el.items.length > MaxEventListSize) :
    filterEventList (some el) =
      some ⟨(el.items.mergeSort eventLE).drop
              (el.items.length - MaxEventListSize)⟩ := by
  simp only [filterEventList, h, if_pos, List.length_mergeSort]

/-- C1: on an event list with more than `MaxEventListSize` items, `filterEventList`
returns exactly `MaxEventListSize` items, obtained by sorting the items in
nondecreasing `CreationTimestamp` order and keeping the tail: the dropped prefix
consists of items no newer than any kept item. -/
theorem filterEventList_keeps_newest (el : EventList)
    (h : el.items.length > MaxEventListSize) :
    ∃ kept dropped : List Event,
      filterEventList (some el) = some ⟨kept⟩ ∧
      kept.length = MaxEventListSize ∧
      dropped ++ kept = el.items.mergeSort eventLE ∧
      (el.items.mergeSort eventLE).Perm el.items ∧
      List.Pairwise (fun a b => eventLE a b = true) (el.items.mergeSort eventLE) ∧
      (∀ x ∈ dropped, ∀ y ∈ kept,
        x.creationTimestamp ≤ y.creationTimestamp) := by
  set n := el.items.length with hn
  set sorted := el.items.mergeSort eventLE with hs
  have hlen : sorted.length = n := List.length_mergeSort el.items
  have hsortedpw : List.Pairwise (fun a b => eventLE a b = true) sorted :=
    List.sorted_mergeSort eventLE_trans eventLE_total el.items
  refine ⟨sorted.drop (n - MaxEventListSize), sorted.take (n - MaxEventListSize),
    ?_, ?_, ?_, List.mergeSort_perm el.items eventLE, hsortedpw, ?_⟩
  · exact filterEventList_big el h
  · rw [List.length_drop, hlen]
    omega
  · exact List.take_append_drop _ _
  · intro x hx y hy
    have hpw : List.Pairwise (fun a b => eventLE a b = true)
        (sorted.take (n - MaxEventListSize) ++
          sorted.drop (n - MaxEventListSize)) := by
      rw [List.take_append_drop]
      exact hsortedpw
    have hsplit := (List.pairwise_append.mp hpw).2.2
    have := hsplit x hx y hy
    simpa [eventLE, decide_eq_true_eq] using this

/-- A concrete event list with 4001 items for exercising the filter. -/
def bigEventList : EventList :=
  ⟨(List.range 4001).map fun i => ⟨"e", Int.ofNat i, ""⟩⟩

theorem bigEventList_len : bigEventList.items.length > MaxEventListSize := by
  simp [bigEventList, MaxEventListSize]

/-- Witness for C1 at a concrete 4001-item list. -/
theorem filterEventList_keeps_newest_witness :
    bigEventList.items.length > MaxEventListSize ∧
    (∃ kept dropped : List Event,
      filterEventList (some bigEventList) = some ⟨kept⟩ ∧
      kept.length = MaxEventListSize ∧
      dropped ++ kept = bigEventList.items.mergeSort eventLE ∧
      (bigEventList.items.mergeSort eventLE).Perm bigEventList.items ∧
      List.Pairwise (fun a b => eventLE a b = true)
        (bigEventList.items.mergeSort eventLE) ∧
      (∀ x ∈ dropped, ∀ y ∈ kept,
        x.creationTimestamp ≤ y.creationTimestamp)) :=
  ⟨bigEventList_len, filterEventList_keeps_newest bigEventList bigEventList_len⟩

theorem filterEventList_size (el : EventList) :
    ∃ out : EventList, filterEventList (some el) = some out ∧
      out.items.length = min el.items.length MaxEventListSize := by
  by_cases h : el.items.length > MaxEventListSize
  · refine ⟨_, filterEventList_big el h, ?_⟩
    rw [List.length_drop, List.length_mergeSort]
    omega
  · refine ⟨el, ?_, ?_⟩
    · simp only [filterEventList, h, if_neg, not_false_iff]
    · omega

/-- C2: `filterEventList` is idempotent, on every non-nil event list the output
size is `min (input size) MaxEventListSize`, and `MaxEventListSize` is 4000. -/
theorem filterEventList_idempotent_and_size :
    (∀ x : Option EventList,
      filterEventList (filterEventList x) = filterEventList x) ∧
    (∀ el : EventList,
      Option.map (fun out => out.items.length) (filterEventList (some el)) =
        some (min el.items.length MaxEventListSize)) ∧
    MaxEventListSize = 4000 := by
  refine ⟨?_, ?_, rfl⟩
  · intro x
    match x with
    | none => rfl
    | some el =>
      obtain ⟨out, hout, hlen⟩ := filterEventList_size el
      rw [hout]
      have : ¬ out.items.length > MaxEventListSize := by omega
      simp only [filterEventList, this, if_neg, not_false_iff]
  · intro el
    obtain ⟨out, hout, hlen⟩ := filterEventList_size el
    rw [hout]
    simpa using hlen

/-- Pod phases of the data model (`api.PodPhase`); the values named by the spec
are `Waiting`, `Dispatching`, `Running`, `Succeeded`, `Failed`, `Terminated`,
plus `Creating` used internally. -/
inductive PodPhase where
  | creating
  | waiting
  | dispatching
  | running
  | succeeded
  | failed
  | terminated
deriving Repr, DecidableEq

/-- A reference to a parent object by kind, name and UID (`api.ObjectReference`). -/
structure ObjectReference where
  kind : String
  name : String
  uid : String
deriving Repr, DecidableEq

/-- An `api.Pod` as far as the verified code reads it. -/
structure Pod where
  name : String
  uid : String
  phase : PodPhase
  boundNodeName : String
deriving Repr, DecidableEq

/-- An `api.Node` (a cell); only identity matters for the claims here. -/
structure NodeObject where
  name : String
  uid : String
deriving Repr, DecidableEq

/-- An `api.Log`: the most recent log snapshot keyed by a parent reference. -/
structure Log where
  name : String
  parentObject : ObjectReference
  content : String
deriving Repr, DecidableEq

/-- The `api.MilpaObject` interface as a tagged sum of the registry kinds.
Pointer-typed members (such as `*api.EventList`) carry an `Option`. -/
inductive MilpaObject where
  | pod : Pod → MilpaObject
  | node : NodeObject → MilpaObject
  | log : Log → MilpaObject
  | event : Event → MilpaObject
  | eventList : Option EventList → MilpaObject
deriving Repr, DecidableEq

/-- Embedding of `filterReplyObject` (etcd_test_helpers.go:461-467): a type
switch that filters `*api.EventList` replies and passes everything else
through. -/
def filterReplyObject (obj : MilpaObject) : MilpaObject :=
  match obj with
  | .eventList v => .eventList (filterEventList v)
  | _ => obj

/-- C9: `filterReplyObject` is the identity on every object that is not an
event list, and transforms event lists exactly by `filterEventList`. -/
theorem filterReplyObject_identity_except_eventList :
    (∀ obj : MilpaObject,
      (∀ v, obj ≠ MilpaObject.eventList v) → filterReplyObject obj = obj) ∧
    (∀ v, filterReplyObject (MilpaObject.eventList v) =
      MilpaObject.eventList (filterEventList v)) := by
  refine ⟨?_, fun v => rfl⟩
  intro obj h
  cases obj with
  | eventList v => exact absurd rfl (h v)
  | pod _ => rfl
  | node _ => rfl
  | log _ => rfl
  | event _ => rfl

/-- Witness for C9 on a concrete pod reply. -/
theorem filterReplyObject_identity_witness :
    filterReplyObject (MilpaObject.pod ⟨"p1", "u1", PodPhase.waiting, ""⟩) =
      MilpaObject.pod ⟨"p1", "u1", PodPhase.waiting, ""⟩ :=
  filterReplyObject_identity_except_eventList.1 _
    (fun _ h => MilpaObject.noConfusion h)

/-- The etcd key at which the cluster region is stored. -/
def etcdClusterRegionPath : String := "milpa/cluster/region"

/-- Embedding of `ensureRegionUnchanged` (etcd_test_helpers.go:163-183). The
store is summarised by the value at `milpa/cluster/region` (`none` when the key
is absent, making `Get` fail with `ErrKeyNotFound`); the result carries the
value stored after the call, so the key-not-found branch performs the
`AtomicPut` of the cloud-reported region. -/
def ensureRegionUnchanged (storedRegion : Option String) (region : String) :
    Except String (Option String) :=
  match storedRegion with
  | none => Except.ok (some region)
  | some savedRegion =>
    if region ≠ savedRegion then
      Except.error ("Error: region has changed from " ++ savedRegion ++
        " to " ++ region ++ ". This is unsupported. " ++
        "Please delete all cluster resources and rename your cluster.")
    else Except.ok (some savedRegion)

/-- C3: `ensureRegionUnchanged` errs exactly when a stored region exists and
differs from the cloud-reported one; the error message contains both regions;
an absent region is written; a matching region is left unchanged. -/
theorem ensureRegionUnchanged_spec (storedRegion : Option String)
    (region : String) :
    ((∃ msg, ensureRegionUnchanged storedRegion region = Except.error msg) ↔
      ∃ saved, storedRegion = some saved ∧ saved ≠ region) ∧
    (storedRegion = none →
      ensureRegionUnchanged storedRegion region = Except.ok (some region)) ∧
    (storedRegion = some region →
      ensureRegionUnchanged storedRegion region = Except.ok storedRegion) ∧
    (∀ saved msg, storedRegion = some saved →
      ensureRegionUnchanged storedRegion region = Except.error msg →
      ∃ a b c, msg = a ++ saved ++ b ++ region ++ c) := by
  refine ⟨⟨?_, ?_⟩, ?_, ?_, ?_⟩
  · rintro ⟨msg, hmsg⟩
    match storedRegion with
    | none => exact absurd hmsg (by simp [ensureRegionUnchanged])
    | some saved =>
      refine ⟨saved, rfl, ?_⟩
      intro hEq
      rw [ensureRegionUnchanged] at hmsg
      simp [hEq] at hmsg
  · rintro ⟨saved, hsaved, hne⟩
    subst hsaved
    rw [ensureRegionUnchanged]
    have : region ≠ saved := fun h => hne h.symm
    simp [this]
  · intro h
    subst h
    rfl
  · intro h
    subst h
    simp [ensureRegionUnchanged]
  · intro saved msg hsaved hmsg
    subst hsaved
    rw [ensureRegionUnchanged] at hmsg
    by_cases h : region = saved
    · simp [h] at hmsg
    · simp only [ne_eq, h, not_false_iff, if_pos] at hmsg
      refine ⟨"Error: region has changed from ", " to ",
        ". This is unsupported. " ++
        "Please delete all cluster resources and rename your cluster.", ?_⟩
      injection hmsg with h2
      rw [← h2]
      exact String.append_assoc _ _ _

/-- Witness for C3: a mismatching stored region yields an error; an absent one
is written. -/
theorem ensureRegionUnchanged_spec_witness :
    (∃ msg, ensureRegionUnchanged (some "us-east-1") "us-west-2" =
      Except.error msg) ∧
    ensureRegionUnchanged none "eu-west-1" = Except.ok (some "eu-west-1") :=
  ⟨(ensureRegionUnchanged_spec (some "us-east-1") "us-west-2").1.mpr
      ⟨"us-east-1", rfl, by decide⟩,
    (ensureRegionUnchanged_spec none "eu-west-1").2.1 rfl⟩

/-- Registry lookup half of `findLog`: the last stored snapshot whose parent is
the named object, optionally narrowed to a named log (the empty log name
matches any). Modelled from the spec: the server package file defining
`findLog` is absent from these sources. -/
def findLogInRegistry (logs : List Log) (parentName logName : String) :
    Except String Log :=
  match logs.find? (fun l => l.parentObject.name == parentName &&
      (logName == "" || l.name == logName)) with
  | some l => Except.ok l
  | none => Except.error ("Could not find log for " ++ parentName)

/-- Modelled from the spec: `findLog` of the server package is not among these
sources (only its tests are). Per the spec (section 4.6 and scenario 2), a log
request for a pod in `Running` is served by the bound node agent, and otherwise
falls back to the Log registry, returning the last stored snapshot for the
pod. `agentLogs node lines bytes` stands for the node-agent log fetch. -/
def findLog (pods : List Pod) (logs : List Log)
    (agentLogs : String → Nat → Nat → String)
    (podName logName : String) (lines bytes : Nat) : Except String Log :=
  match pods.find? (fun p => p.name == podName) with
  | some pod =>
    if pod.phase == PodPhase.running then
      Except.ok { name := logName,
                  parentObject := { kind := "Pod", name := pod.name,
                                    uid := pod.uid },
                  content := agentLogs pod.boundNodeName lines bytes }
    else
      findLogInRegistry logs podName logName
  | none => findLogInRegistry logs podName logName

/-- C4: for a pod that is not `Running` and a stored Log whose parent is that
pod, `findLog podName "" 0 0` returns the stored record, for every possible
node-agent behaviour (so the agent is never consulted). -/
theorem findLog_registry_fallback (pods : List Pod) (logs : List Log)
    (pod : Pod) (lg : Log) (podName : String)
    (hpod : pods.find? (fun p => p.name == podName) = some pod)
    (hphase : pod.phase ≠ PodPhase.running)
    (hlog : logs.find? (fun l => l.parentObject.name == podName) = some lg) :
    ∀ agentLogs : String → Nat → Nat → String,
      findLog pods logs agentLogs podName "" 0 0 = Except.ok lg := by
  intro agentLogs
  have hb : (pod.phase == PodPhase.running) = false := by
    simpa using hphase
  simp only [findLog, hpod, hb, Bool.false_eq_true, if_false]
  rw [findLogInRegistry]
  have hpred : (fun l : Log => l.parentObject.name == podName &&
      (("" : String) == "" || l.name == "")) =
      fun l : Log => l.parentObject.name == podName := by
    funext l
    simp
  rw [hpred, hlog]

/-- Witness for C4: scenario 2 of the spec, a `Waiting` pod with a stored log. -/
theorem findLog_registry_fallback_witness :
    findLog [⟨"p2", "u2", PodPhase.waiting, ""⟩]
      [⟨"lg", ⟨"Pod", "p2", "u2"⟩, "Old pod log lines"⟩]
      (fun _ _ _ => "agent data") "p2" "" 0 0 =
      Except.ok ⟨"lg", ⟨"Pod", "p2", "u2"⟩, "Old pod log lines"⟩ :=
  findLog_registry_fallback
    [⟨"p2", "u2", PodPhase.waiting, ""⟩]
    [⟨"lg", ⟨"Pod", "p2", "u2"⟩, "Old pod log lines"⟩]
    ⟨"p2", "u2", PodPhase.waiting, ""⟩
    ⟨"lg", ⟨"Pod", "p2", "u2"⟩, "Old pod log lines"⟩
    "p2" rfl (by decide) rfl _

/-- Default provider CPU capacity (etcd_test_helpers.go:75). -/
def defaultCPUCapacity : String := "20"

/-- Default provider memory capacity (etcd_test_helpers.go:76). -/
def defaultMemoryCapacity : String := "100Gi"

/-- Default provider pod capacity (etcd_test_helpers.go:77). -/
def defaultPodCapacity : String := "20"

/-- The `ProviderConfig` JSON entry: capacity strings; omitted JSON fields
decode to the empty string. -/
structure ProviderConfig where
  cpu : String := ""
  memory : String := ""
  pods : String := ""
deriving Repr, DecidableEq

/-- Go map lookup of the node entry inside `loadProviderConfig`: a missing key
leaves the zero-valued config. -/
def lookupNodeConfig (configMap : List (String × ProviderConfig))
    (nodeName : String) : ProviderConfig :=
  match configMap.find? (fun kv => kv.1 == nodeName) with
  | some kv => kv.2
  | none => {}

/-- The defaulting steps of `loadProviderConfig`: each empty field is replaced
by its default. -/
def applyDefaults (config : ProviderConfig) : ProviderConfig :=
  let c1 := if config.cpu = "" then
    { config with cpu := defaultCPUCapacity } else config
  let c2 := if c1.memory = "" then
    { c1 with memory := defaultMemoryCapacity } else c1
  if c2.pods = "" then { c2 with pods := defaultPodCapacity } else c2

/-- Embedding of `loadProviderConfig` (etcd_test_helpers.go:411-446). The file
read plus JSON unmarshal is summarised by the `file` argument (`Except.error`
when reading or decoding failed, otherwise the decoded map); the external
`resource.ParseQuantity` validator is the abstract `parseQuantityOk`. -/
def loadProviderConfig (parseQuantityOk : String → Bool)
    (file : Except String (List (String × ProviderConfig)))
    (nodeName : String) : Except String ProviderConfig :=
  match file with
  | Except.error e => Except.error ("reading config: " ++ e)
  | Except.ok configMap =>
    let config := applyDefaults (lookupNodeConfig configMap nodeName)
    if !parseQuantityOk config.cpu then
      Except.error ("Invalid CPU value " ++ config.cpu)
    else if !parseQuantityOk config.memory then
      Except.error ("Invalid memory value " ++ config.memory)
    else if !parseQuantityOk config.pods then
      Except.error ("Invalid pods value " ++ config.pods)
    else Except.ok config

/-- C5: on a readable config file, `loadProviderConfig` returns the entry keyed
by the node name with empty fields defaulted to cpu 20, memory 100Gi, pods 20
(the whole default config when the node has no entry), provided all three
effective fields parse as quantities; a non-parsing field yields an error. -/
theorem loadProviderConfig_spec (parseQuantityOk : String → Bool)
    (configMap : List (String × ProviderConfig)) (nodeName : String) :
    (∀ c : ProviderConfig, applyDefaults c =
      ⟨if c.cpu = "" then defaultCPUCapacity else c.cpu,
       if c.memory = "" then defaultMemoryCapacity else c.memory,
       if c.pods = "" then defaultPodCapacity else c.pods⟩) ∧
    (∀ kv, configMap.find? (fun kv => kv.1 == nodeName) = some kv →
      lookupNodeConfig configMap nodeName = kv.2) ∧
    (configMap.find? (fun kv => kv.1 == nodeName) = none →
      lookupNodeConfig configMap nodeName = ⟨"", "", ""⟩) ∧
    (defaultCPUCapacity = "20" ∧ defaultMemoryCapacity = "100Gi" ∧
      defaultPodCapacity = "20") ∧
    (parseQuantityOk (applyDefaults (lookupNodeConfig configMap nodeName)).cpu →
     parseQuantityOk (applyDefaults (lookupNodeConfig configMap nodeName)).memory →
     parseQuantityOk (applyDefaults (lookupNodeConfig configMap nodeName)).pods →
     loadProviderConfig parseQuantityOk (Except.ok configMap) nodeName =
       Except.ok (applyDefaults (lookupNodeConfig configMap nodeName))) ∧
    ((parseQuantityOk (applyDefaults (lookupNodeConfig configMap nodeName)).cpu = false ∨
      parseQuantityOk (applyDefaults (lookupNodeConfig configMap nodeName)).memory = false ∨
      parseQuantityOk (applyDefaults (lookupNodeConfig configMap nodeName)).pods = false) →
     ∃ msg, loadProviderConfig parseQuantityOk (Except.ok configMap) nodeName =
       Except.error msg) := by
  refine ⟨?_, ?_, ?_, ⟨rfl, rfl, rfl⟩, ?_, ?_⟩
  · intro c
    simp only [applyDefaults]
    by_cases h1 : c.cpu = "" <;> by_cases h2 : c.memory = "" <;>
      by_cases h3 : c.pods = "" <;> simp [h1, h2, h3]
  · intro kv h
    simp [lookupNodeConfig, h]
  · intro h
    simp [lookupNodeConfig, h]
  · intro h1 h2 h3
    simp only [loadProviderConfig, h1, h2, h3, Bool.not_true, Bool.false_eq_true,
      if_false]
  · intro h
    set eff := applyDefaults (lookupNodeConfig configMap nodeName) with heff
    cases hc : parseQuantityOk eff.cpu with
    | false =>
      refine ⟨"Invalid CPU value " ++ eff.cpu, ?_⟩
      simp [loadProviderConfig, ← heff, hc]
    | true =>
      cases hm : parseQuantityOk eff.memory with
      | false =>
        refine ⟨"Invalid memory value " ++ eff.memory, ?_⟩
        simp [loadProviderConfig, ← heff, hc, hm]
      | true =>
        cases hp : parseQuantityOk eff.pods with
        | false =>
          refine ⟨"Invalid pods value " ++ eff.pods, ?_⟩
          simp [loadProviderConfig, ← heff, hc, hm, hp]
        | true =>
          rcases h with h | h | h <;> simp_all

/-- Witness for C5: a config file with one entry whose memory and pods fields
are left to default. -/
theorem loadProviderConfig_spec_witness :
    loadProviderConfig (fun _ => true)
      (Except.ok [("node1", ⟨"4", "", ""⟩)]) "node1" =
      Except.ok ⟨"4", "100Gi", "20"⟩ := by
  have h := (loadProviderConfig_spec (fun _ => true)
    [("node1", ⟨"4", "", ""⟩)] "node1").2.2.2.2.1 rfl rfl rfl
  rw [h]
  rfl

/-- A parsed `resource.Quantity`; `resource.MustParse` is deterministic, so the
quantity is represented by its source string. -/
structure Quantity where
  raw : String
deriving Repr, DecidableEq

/-- Abstraction of `resource.MustParse` (external library, total on the strings
the provider feeds it after `loadProviderConfig` validation). -/
def mustParse (s : String) : Quantity := ⟨s⟩

/-- A `v1.ResourceList` restricted to the keys the provider sets. -/
structure ResourceList where
  cpu : Quantity
  memory : Quantity
  pods : Quantity
deriving Repr, DecidableEq

/-- A `v1.NodeCondition`; `metav1.Now()` timestamps are passed in as `now`. -/
structure NodeCondition where
  type : String
  status : String
  lastHeartbeatTime : Timestamp
  lastTransitionTime : Timestamp
  reason : String
  message : String
deriving Repr, DecidableEq

/-- A `v1.NodeAddress`. -/
structure NodeAddress where
  type : String
  address : String
deriving Repr, DecidableEq

/-- The `v1.NodeDaemonEndpoints` the provider sets (kubelet endpoint port). -/
structure NodeDaemonEndpoints where
  kubeletPort : Int
deriving Repr, DecidableEq

/-- The `v1.NodeSystemInfo` fields the provider writes. -/
structure NodeSystemInfo where
  operatingSystem : String
  architecture : String
deriving Repr, DecidableEq

/-- The `v1.NodeStatus` fields touched by `ConfigureNode`. -/
structure NodeStatus where
  capacity : ResourceList
  allocatable : ResourceList
  conditions : List NodeCondition
  addresses : List NodeAddress
  daemonEndpoints : NodeDaemonEndpoints
  nodeInfo : NodeSystemInfo
deriving Repr, DecidableEq

/-- A `v1.Node` as far as `ConfigureNode` touches it. -/
structure V1Node where
  name : String
  status : NodeStatus
deriving Repr, DecidableEq

/-- The `InstanceProvider` fields read by the verified methods
(etcd_test_helpers.go:97-114); registries, controllers and clients are omitted
because none of the verified methods consult them. -/
structure InstanceProvider where
  nodeName : String
  operatingSystem : String
  internalIP : String
  daemonEndpointPort : Int
  config : ProviderConfig
deriving Repr, DecidableEq

/-- Embedding of `InstanceProvider.capacity` (etcd_test_helpers.go:559-565). -/
def InstanceProvider.capacity (p : InstanceProvider) : ResourceList :=
  { cpu := mustParse p.config.cpu
    memory := mustParse p.config.memory
    pods := mustParse p.config.pods }

/-- Embedding of `InstanceProvider.nodeConditions`
(etcd_test_helpers.go:567-610); every `metav1.Now()` call is the instant
`now`. -/
def InstanceProvider.nodeConditions (p : InstanceProvider) (now : Timestamp) :
    List NodeCondition :=
  [{ type := "Ready", status := "True", lastHeartbeatTime := now,
     lastTransitionTime := now, reason := "KubeletReady",
     message := "kubelet is ready" },
   { type := "OutOfDisk", status := "False", lastHeartbeatTime := now,
     lastTransitionTime := now, reason := "KubeletHasSufficientDisk",
     message := "kubelet has sufficient disk space available" },
   { type := "MemoryPressure", status := "False", lastHeartbeatTime := now,
     lastTransitionTime := now, reason := "KubeletHasSufficientMemory",
     message := "kubelet has sufficient memory available" },
   { type := "DiskPressure", status := "False", lastHeartbeatTime := now,
     lastTransitionTime := now, reason := "KubeletHasNoDiskPressure",
     message := "kubelet has no disk pressure" },
   { type := "NetworkUnavailable", status := "False", lastHeartbeatTime := now,
     lastTransitionTime := now, reason := "RouteCreated",
     message := "RouteController created a route" }]

/-- Embedding of `InstanceProvider.nodeAddresses`
(etcd_test_helpers.go:612-619). -/
def InstanceProvider.nodeAddresses (p : InstanceProvider) : List NodeAddress :=
  [{ type := "InternalIP", address := p.internalIP }]

/-- Embedding of `InstanceProvider.nodeDaemonEndpoints`
(etcd_test_helpers.go:621-627). -/
def InstanceProvider.nodeDaemonEndpoints (p : InstanceProvider) :
    NodeDaemonEndpoints :=
  { kubeletPort := p.daemonEndpointPort }

/-- Embedding of `InstanceProvider.ConfigureNode`
(etcd_test_helpers.go:542-557); the in-place mutation of `n` becomes returning
the updated node. -/
def InstanceProvider.ConfigureNode (p : InstanceProvider) (now : Timestamp)
    (n : V1Node) : V1Node :=
  { n with status :=
    { n.status with
      capacity := p.capacity
      allocatable := p.capacity
      conditions := p.nodeConditions now
      addresses := p.nodeAddresses
      daemonEndpoints := p.nodeDaemonEndpoints
      nodeInfo :=
        { n.status.nodeInfo with
          operatingSystem :=
            if p.operatingSystem = "" then "Linux" else p.operatingSystem
          architecture := "amd64" } } }

/-- C6: the synthesized node conditions always report Ready with status True
and every other condition (OutOfDisk, MemoryPressure, DiskPressure,
NetworkUnavailable) with status False, for every provider and every instant. -/
theorem nodeConditions_fixed (p : InstanceProvider) (now : Timestamp) :
    (p.nodeConditions now).map (fun c => (c.type, c.status)) =
      [("Ready", "True"), ("OutOfDisk", "False"), ("MemoryPressure", "False"),
       ("DiskPressure", "False"), ("NetworkUnavailable", "False")] := rfl

/-- C10: after `ConfigureNode`, the allocatable resources of the node equal its
capacity (both the provider capacity), the architecture is always amd64, and
the operating system is that of the provider, defaulting to Linux when
unset. -/
theorem ConfigureNode_spec (p : InstanceProvider) (now : Timestamp)
    (n : V1Node) :
    (p.ConfigureNode now n).status.allocatable =
      (p.ConfigureNode now n).status.capacity ∧
    (p.ConfigureNode now n).status.capacity = p.capacity ∧
    (p.ConfigureNode now n).status.nodeInfo.architecture = "amd64" ∧
    (p.operatingSystem = "" →
      (p.ConfigureNode now n).status.nodeInfo.operatingSystem = "Linux") ∧
    (p.operatingSystem ≠ "" →
      (p.ConfigureNode now n).status.nodeInfo.operatingSystem =
        p.operatingSystem) := by
  refine ⟨rfl, rfl, rfl, ?_, ?_⟩
  · intro h
    simp [InstanceProvider.ConfigureNode, h]
  · intro h
    simp [InstanceProvider.ConfigureNode, h]

/-- A sample configured provider for exercising node synthesis. -/
def sampleProvider : InstanceProvider :=
  { nodeName := "kip-node"
    operatingSystem := ""
    internalIP := "10.0.0.1"
    daemonEndpointPort := 10250
    config := { cpu := "20", memory := "100Gi", pods := "20" } }

/-- A sample node object before configuration. -/
def sampleNode : V1Node :=
  { name := "vk"
    status :=
      { capacity := ⟨⟨""⟩, ⟨""⟩, ⟨""⟩⟩
        allocatable := ⟨⟨""⟩, ⟨""⟩, ⟨""⟩⟩
        conditions := []
        addresses := []
        daemonEndpoints := ⟨0⟩
        nodeInfo := ⟨"", ""⟩ } }

/-- Witness for C10 on a concrete provider with an unset operating system. -/
theorem ConfigureNode_spec_witness :
    (sampleProvider.ConfigureNode 0 sampleNode).status.allocatable =
      (sampleProvider.ConfigureNode 0 sampleNode).status.capacity ∧
    (sampleProvider.ConfigureNode 0 sampleNode).status.nodeInfo.operatingSystem =
      "Linux" :=
  ⟨(ConfigureNode_spec sampleProvider 0 sampleNode).1,
    (ConfigureNode_spec sampleProvider 0 sampleNode).2.2.2.1 rfl⟩

/-- Nanoseconds in one Go `time.Second`. -/
def second : Int := 1000000000

/-- The `NodeControllerConfig` fields set in `NewInstanceProvider`
(etcd_test_helpers.go:317-323). -/
structure NodeControllerConfig where
  poolInterval : Int
  heartbeatInterval : Int
  reaperInterval : Int
  itzoVersion : String
  itzoURL : String
deriving Repr, DecidableEq

/-- The `NodeControllerConfig` literal built at provider construction
(etcd_test_helpers.go:317-323). -/
def newNodeControllerConfig (itzoVersion itzoURL : String) :
    NodeControllerConfig :=
  { poolInterval := 7 * second
    heartbeatInterval := 10 * second
    reaperInterval := 10 * second
    itzoVersion := itzoVersion
    itzoURL := itzoURL }

/-- The `GarbageControllerConfig` fields set in `NewInstanceProvider`
(etcd_test_helpers.go:345-348). -/
structure GarbageControllerConfig where
  cleanInstancesInterval : Int
  cleanTerminatedInterval : Int
deriving Repr, DecidableEq

/-- The `GarbageControllerConfig` literal built at provider construction
(etcd_test_helpers.go:345-348). -/
def newGarbageControllerConfig : GarbageControllerConfig :=
  { cleanInstancesInterval := 60 * second
    cleanTerminatedInterval := 10 * second }

/-- C7: the tick intervals configured at construction are 7s, 10s and 10s for
the node controller and 60s and 10s for the garbage controller (values in
nanoseconds, one second being 1e9). -/
theorem controller_tick_intervals (itzoVersion itzoURL : String) :
    (newNodeControllerConfig itzoVersion itzoURL).poolInterval =
      7 * 1000000000 ∧
    (newNodeControllerConfig itzoVersion itzoURL).heartbeatInterval =
      10 * 1000000000 ∧
    (newNodeControllerConfig itzoVersion itzoURL).reaperInterval =
      10 * 1000000000 ∧
    newGarbageControllerConfig.cleanInstancesInterval = 60 * 1000000000 ∧
    newGarbageControllerConfig.cleanTerminatedInterval = 10 * 1000000000 :=
  ⟨rfl, rfl, rfl, rfl, rfl⟩

/-- A `v1.Pod` as passed to the virtual-kubelet callbacks. -/
structure V1Pod where
  podNamespace : String
  name : String
deriving Repr, DecidableEq

/-- The `vkapi.ContainerLogOpts` options record. -/
structure ContainerLogOpts where
  tail : Int := 0
deriving Repr, DecidableEq

/-- A `v1.PodStatus` result placeholder for `GetPodStatus`. -/
structure V1PodStatus where
  phase : String
deriving Repr, DecidableEq

/-- Embedding of `InstanceProvider.CreatePod` (etcd_test_helpers.go:469-476):
tracing aside, it returns the `not implemented` error. -/
def InstanceProvider.CreatePod (p : InstanceProvider) (pod : V1Pod) :
    Except String Unit :=
  Except.error "not implemented"

/-- Embedding of `InstanceProvider.UpdatePod` (etcd_test_helpers.go:478-485). -/
def InstanceProvider.UpdatePod (p : InstanceProvider) (pod : V1Pod) :
    Except String Unit :=
  Except.error "not implemented"

/-- Embedding of `InstanceProvider.DeletePod` (etcd_test_helpers.go:487-495). -/
def InstanceProvider.DeletePod (p : InstanceProvider) (pod : V1Pod) :
    Except String Unit :=
  Except.error "not implemented"

/-- Embedding of `InstanceProvider.GetPod` (etcd_test_helpers.go:497-504): the
`(nil, error)` pair becomes the error case carrying no pod. -/
def InstanceProvider.GetPod (p : InstanceProvider) (ns name : String) :
    Except String V1Pod :=
  Except.error "not implemented"

/-- Embedding of `InstanceProvider.GetContainerLogs`
(etcd_test_helpers.go:506-513); the reader result is a string stream. -/
def InstanceProvider.GetContainerLogs (p : InstanceProvider)
    (ns podName containerName : String) (opts : ContainerLogOpts) :
    Except String String :=
  Except.error "not implemented"

/-- Embedding of `InstanceProvider.RunInContainer`
(etcd_test_helpers.go:515-522). -/
def InstanceProvider.RunInContainer (p : InstanceProvider)
    (ns podName containerName : String) (cmd : List String) :
    Except String Unit :=
  Except.error "not implemented"

/-- Embedding of `InstanceProvider.GetPodStatus`
(etcd_test_helpers.go:524-531). -/
def InstanceProvider.GetPodStatus (p : InstanceProvider) (ns name : String) :
    Except String V1PodStatus :=
  Except.error "not implemented"

/-- Embedding of `InstanceProvider.GetPods` (etcd_test_helpers.go:533-540). -/
def InstanceProvider.GetPods (p : InstanceProvider) :
    Except String (List V1Pod) :=
  Except.error "not implemented"

/-- C8: on every input, each virtual-kubelet pod lifecycle callback of
`InstanceProvider` returns the `not implemented` error, and the getters carry
no result object (the error constructor holds none). -/
theorem callbacks_not_implemented (p : InstanceProvider) (pod : V1Pod)
    (ns name podName containerName : String) (opts : ContainerLogOpts)
    (cmd : List String) :
    p.CreatePod pod = Except.error "not implemented" ∧
    p.UpdatePod pod = Except.error "not implemented" ∧
    p.DeletePod pod = Except.error "not implemented" ∧
    p.GetPod ns name = Except.error "not implemented" ∧
    p.GetContainerLogs ns podName containerName opts =
      Except.error "not implemented" ∧
    p.RunInContainer ns podName containerName cmd =
      Except.error "not implemented" ∧
    p.GetPodStatus ns name = Except.error "not implemented" ∧
    p.GetPods = Except.error "not implemented" :=
  ⟨rfl, rfl, rfl, rfl, rfl, rfl, rfl, rfl⟩

end Kip
